import Mathlib

/-!
Verification of the industrial-cv-ai inspection system against its
natural-language specification.  The repository implements the Phase-1
foundation in `src/cpp/frame_processor.cpp`, `src/webgpu/detector.ts` and
`src/camera/capture.ts`; the real-time defect-detection pipeline (ring
buffer, alignment, differencing, region extraction, temporal aggregation,
scheduling) is specified but not yet implemented, so those components are
modelled here directly from the specification's words.
-/

namespace IndustrialCV

/-! ## Frame processor (src/cpp/frame_processor.cpp) -/

/-- Result record returned by `FrameProcessor::processFrame`, from
`frame_processor.h`: `processed = false`, `width = 0`, `height = 0`,
`error = ""` are the field defaults. -/
structure ProcessedFrame where
  processed : Bool
  width : Int
  height : Int
  error : String
deriving DecidableEq, Repr

/-- Mutable state of a `FrameProcessor` object: the WebGPU device handle
(`nullptr` modelled as `none`), the compute pipeline handle and the output
buffer handle, all `nullptr` after construction. -/
structure FrameProcessor where
  device : Option Nat
  pipeline : Option Nat
  outputBuffer : Option Nat
deriving DecidableEq, Repr

/-- The `FrameProcessor` constructor: all handles start as `nullptr`. -/
def FrameProcessor.new : FrameProcessor :=
  { device := none, pipeline := none, outputBuffer := none }

/-- `FrameProcessor::initializePipeline`: a Phase-2 placeholder that only
logs and returns `true`, leaving the state unchanged. -/
def FrameProcessor.initPipeline (fp : FrameProcessor) : Bool × FrameProcessor :=
  (true, fp)

/-- `FrameProcessor::initialize(WGPUDevice device)`: stores the device
handle unconditionally, returns `false` when it is null and otherwise the
result of `initializePipeline`. -/
def FrameProcessor.init (fp : FrameProcessor) (dev : Option Nat) :
    Bool × FrameProcessor :=
  let fp' := { fp with device := dev }
  match dev with
  | none => (false, fp')
  | some _ => fp'.initPipeline

/-- `FrameProcessor::processFrame(uint32_t textureId, int width, int height)`:
with a null device it returns the default record with the error message
"WebGPU device not initialized"; otherwise it echoes the dimensions with
`processed = true` and an empty error string. -/
def FrameProcessor.processFrame (fp : FrameProcessor) (_textureId : Nat)
    (width height : Int) : ProcessedFrame :=
  match fp.device with
  | none =>
      { processed := false, width := 0, height := 0,
        error := "WebGPU device not initialized" }
  | some _ =>
      { processed := true, width := width, height := height, error := "" }

/-! ## WebGPU detector (src/webgpu/detector.ts) -/

/-- A JavaScript thrown value as discriminated by
`error instanceof Error ? error.message : 'Unknown error'`: either an
`Error` object carrying its message string, or any other value. -/
inductive Thrown where
  | errObj (msg : String)
  | nonErr
deriving DecidableEq, Repr

/-- Outcome of awaiting a browser API call: it resolves with a value or
rejects with a thrown value. -/
inductive JsCall (α : Type) where
  | ok (a : α)
  | throws (t : Thrown)
deriving DecidableEq, Repr

/-- `true` when the call resolves rather than throwing. -/
def JsCall.resolves {α : Type} : JsCall α → Bool
  | .ok _ => true
  | .throws _ => false

/-- Browser environment seen by `WebGPUDetector.initialize`:
whether `navigator.gpu` exists, the outcome of
`navigator.gpu.requestAdapter` (which may resolve to `null`), and the
outcome of `adapter.requestDevice`. -/
structure GpuEnv where
  gpuPresent : Bool
  adapterReq : JsCall (Option Nat)
  deviceReq : JsCall (Option Nat)
deriving DecidableEq, Repr

/-- The `WebGPUStatus` interface of `detector.ts`: `supported` plus
optional `adapter`, `device` and `error` fields. -/
structure WebGPUStatus where
  supported : Bool
  adapter : Option Nat := none
  device : Option Nat := none
  error : Option String := none
deriving DecidableEq, Repr

/-- Private state of a `WebGPUDetector` object: `adapter` and `device`
both start as `null`. -/
structure WebGPUDetector where
  adapter : Option Nat
  device : Option Nat
deriving DecidableEq, Repr

/-- A freshly constructed `WebGPUDetector`. -/
def WebGPUDetector.new : WebGPUDetector :=
  { adapter := none, device := none }

/-- The message produced by the catch block of `initialize`:
`error instanceof Error ? error.message : 'Unknown error'`. -/
def caughtMsg : Thrown → String
  | .errObj m => m
  | .nonErr => "Unknown error"

/-- `WebGPUDetector.initialize()`: checks `navigator.gpu`, requests an
adapter and a device, storing each on `this` as soon as it is obtained;
every failure path (including the catch block around the whole body)
returns a `WebGPUStatus` with `supported = false` and an `error` string,
and the success path returns the adapter and device. -/
def WebGPUDetector.init (env : GpuEnv) (st : WebGPUDetector) :
    WebGPUStatus × WebGPUDetector :=
  if env.gpuPresent = false then
    ({ supported := false,
       error := some "WebGPU not supported in this browser" }, st)
  else
    match env.adapterReq with
    | .throws t =>
        ({ supported := false, error := some (caughtMsg t) }, st)
    | .ok none =>
        ({ supported := false, error := some "No WebGPU adapter available" },
         { st with adapter := none })
    | .ok (some a) =>
        let st1 := { st with adapter := some a }
        match env.deviceReq with
        | .throws t =>
            ({ supported := false, error := some (caughtMsg t) }, st1)
        | .ok none =>
            ({ supported := false, adapter := some a,
               error := some "Failed to create WebGPU device" },
             { st1 with device := none })
        | .ok (some d) =>
            ({ supported := true, adapter := some a, device := some d },
             { st1 with device := some d })

/-- `WebGPUDetector.getAdapter()`. -/
def WebGPUDetector.getAdapter (st : WebGPUDetector) : Option Nat :=
  st.adapter

/-- `WebGPUDetector.getDevice()`. -/
def WebGPUDetector.getDevice (st : WebGPUDetector) : Option Nat :=
  st.device

/-! ## Camera capture (src/camera/capture.ts) -/

/-- The settings of a media track as returned by `track.getSettings()`. -/
structure TrackSettings where
  width : Nat
  height : Nat
  frameRate : Nat
deriving DecidableEq, Repr

/-- A `MediaStreamTrack`: its kind ("video"/"audio"), label and settings. -/
structure MediaTrack where
  kind : String
  label : String
  settings : TrackSettings
deriving DecidableEq, Repr

/-- A `MediaStream` as a list of tracks. -/
structure MediaStream where
  tracks : List MediaTrack
deriving DecidableEq, Repr

/-- `stream.getVideoTracks()`: the tracks whose kind is "video". -/
def MediaStream.getVideoTracks (s : MediaStream) : List MediaTrack :=
  s.tracks.filter (fun t => t.kind == "video")

/-- Private state of a `CameraCapture` object: `stream`, `videoElement`,
`canvas` and `context`, all initially `null`. -/
structure CameraCapture where
  stream : Option MediaStream
  videoElement : Option Nat
  canvas : Option Nat
  context : Option Nat
deriving DecidableEq, Repr

/-- Observable side effects of `CameraCapture.stop()`: stopping a media
track and clearing the video element's `srcObject`. -/
inductive CameraEffect where
  | trackStopped (kind label : String)
  | srcObjectCleared
deriving DecidableEq, Repr

/-- `CameraCapture.stop()`: stops every track of the stream (when one is
present) and nulls `stream`, clears and nulls `videoElement` (when
present), and nulls `canvas` and `context`; returns the new state together
with the emitted effects. -/
def CameraCapture.stop (st : CameraCapture) :
    CameraCapture × List CameraEffect :=
  let streamEffects :=
    match st.stream with
    | none => []
    | some s => s.tracks.map (fun t => CameraEffect.trackStopped t.kind t.label)
  let videoEffects :=
    match st.videoElement with
    | none => []
    | some _ => [CameraEffect.srcObjectCleared]
  ({ stream := none, videoElement := none, canvas := none, context := none },
   streamEffects ++ videoEffects)

/-- `CameraCapture.getStream()`. -/
def CameraCapture.getStream (st : CameraCapture) : Option MediaStream :=
  st.stream

/-- `CameraCapture.getVideoTrack()`: `null` without a stream, otherwise
the first video track if any. -/
def CameraCapture.getVideoTrack (st : CameraCapture) : Option MediaTrack :=
  match st.stream with
  | none => none
  | some s => (s.getVideoTracks).head?

/-- `CameraCapture.getStreamSettings()`: the settings of the video track,
or `null` when there is none. -/
def CameraCapture.getStreamSettings (st : CameraCapture) :
    Option TrackSettings :=
  (st.getVideoTrack).map (fun t => t.settings)

/-! ## Core pipeline data model

Modelled from the spec: the real-time pipeline of section 2 is not yet
implemented in the repository (the plan documents mark it as Phase 2/3,
with `computeAlignment`, `RingBuffer` push/consume and the detection
stages left as stubs), so the data model of spec section 3 is embedded
from the specification's words. -/

/-- Modelled from the spec: a pixel image as a row-major grid of scalar
values (spec section 3, "pixel buffer"). -/
structure ImageGrid where
  width : Nat
  height : Nat
  pix : List Nat
deriving DecidableEq, Repr

/-- Modelled from the spec: a Frame record — monotonically increasing id,
timestamp and the pixel buffer (spec section 3). -/
structure Frame where
  id : Nat
  timestamp : Nat
  img : ImageGrid
deriving DecidableEq, Repr

/-- Modelled from the spec: the per-frame status of a DetectionResult,
one of Ok, AlignmentFailed or Dropped (spec section 3). -/
inductive ResultStatus where
  | ok
  | alignmentFailed
  | dropped
deriving DecidableEq, Repr

/-! ## Frame ring buffer (spec section 4.1)

Modelled from the spec: the implemented `RingBuffer` sketch in the Phase-2
plan only reserves four texture slots; the push/evict/drop-oldest
behaviour below follows spec section 4.1. -/

/-- Modelled from the spec: a fixed-capacity frame ring buffer holding the
unconsumed frames oldest-first, together with the dropped-frame counter
(spec section 4.1). -/
structure RingBuffer where
  capacity : Nat
  slots : List Frame
  droppedFrameCount : Nat
deriving DecidableEq, Repr

/-- Modelled from the spec: an empty ring buffer of capacity `c`
(default capacity is 4). -/
def RingBuffer.new (c : Nat) : RingBuffer :=
  { capacity := c, slots := [], droppedFrameCount := 0 }

/-- Modelled from the spec: `push(frame)` inserts at the write position;
if the buffer is full the oldest unconsumed frame is evicted and its slot
reused, incrementing the dropped-frame counter (spec section 4.1). -/
def RingBuffer.push (rb : RingBuffer) (f : Frame) : RingBuffer :=
  if rb.capacity ≤ rb.slots.length then
    { rb with slots := rb.slots.tail ++ [f],
              droppedFrameCount := rb.droppedFrameCount + 1 }
  else
    { rb with slots := rb.slots ++ [f] }

/-- Push a whole burst of frames in order, none being consumed meanwhile. -/
def RingBuffer.pushMany (rb : RingBuffer) (fs : List Frame) : RingBuffer :=
  fs.foldl RingBuffer.push rb

/-- Modelled from the spec: consuming the oldest frame frees its slot
(spec section 4.1, acquire/release collapsed to the consumption of the
oldest unconsumed frame). -/
def RingBuffer.consume (rb : RingBuffer) : Option Frame × RingBuffer :=
  match rb.slots with
  | [] => (none, rb)
  | f :: rest => (some f, { rb with slots := rest })

/-! ## Difference map, threshold, morphology, region extraction
(spec sections 4.3 to 4.6) -/

/-- A grid cell position (column, row). -/
abbrev Cell := Nat × Nat

/-- Modelled from the spec: a DifferenceMap — a 2D scalar grid of
deviation magnitudes, same dimensions as the reference (spec section 3).
Deviation magnitudes are non-negative integers. -/
structure DifferenceMap where
  width : Nat
  height : Nat
  dev : List Nat
deriving DecidableEq, Repr

/-- The deviation magnitude stored at a cell (0 outside the grid). -/
def DifferenceMap.devAt (dm : DifferenceMap) (c : Cell) : Nat :=
  (dm.dev.drop (c.2 * dm.width + c.1)).headD 0

/-- Modelled from the spec: a binary candidate mask over the reference
grid, represented by its dimensions and the list of candidate cells
(spec section 4.4 output). -/
structure BinMask where
  width : Nat
  height : Nat
  cells : List Cell
deriving DecidableEq, Repr

/-- All cells of a `w × h` grid, row-major. -/
def gridCells (w h : Nat) : List Cell :=
  (List.range h).flatMap (fun y => (List.range w).map (fun x => (x, y)))

/-- Modelled from the spec: the Threshold Stage with a fixed configured
cutoff — cells with deviation above the cutoff are candidate-defect cells
(spec section 4.4). -/
def thresholdStage (cutoff : Nat) (dm : DifferenceMap) : BinMask :=
  { width := dm.width, height := dm.height,
    cells := (gridCells dm.width dm.height).filter
      (fun c => cutoff < dm.devAt c) }

/-- Chebyshev (8-neighbourhood) distance between two cells. -/
def chebDist (a b : Cell) : Nat :=
  max (max a.1 b.1 - min a.1 b.1) (max a.2 b.2 - min a.2 b.2)

/-- Modelled from the spec: dilation with a square kernel of the given
radius — a cell survives when some candidate cell lies within the kernel
(spec section 4.5). -/
def dilate (m : BinMask) (radius : Nat) : BinMask :=
  { m with cells := ((gridCells m.width m.height).filter
      (fun c => m.cells.any (fun c' => chebDist c c' ≤ radius))) }

/-- Modelled from the spec: erosion with a square kernel of the given
radius — a cell survives when every in-grid cell within the kernel is a
candidate cell (spec section 4.5). -/
def erode (m : BinMask) (radius : Nat) : BinMask :=
  { m with cells := ((gridCells m.width m.height).filter
      (fun c => (gridCells m.width m.height).all
        (fun c' => chebDist c c' ≤ radius → m.cells.contains c'))) }

/-- Modelled from the spec: morphological closing — a dilation followed by
an erosion, bridging small gaps inside a true defect region
(spec section 4.5). -/
def morphologicalClose (radius : Nat) (m : BinMask) : BinMask :=
  erode (dilate m radius) radius

/-- Two distinct cells are 8-connected when their Chebyshev distance is 1. -/
def adjacent8 (a b : Cell) : Bool :=
  chebDist a b == 1

/-- One BFS round of region growth: move every remaining cell adjacent to
the region into the region, with fuel bounding the number of rounds. -/
def growRegion : Nat → List Cell → List Cell → List Cell × List Cell
  | 0, region, remaining => (region, remaining)
  | fuel + 1, region, remaining =>
      let adj := remaining.filter (fun c => region.any (fun r => adjacent8 c r))
      if adj.isEmpty then (region, remaining)
      else growRegion fuel (region ++ adj)
        (remaining.filter (fun c => ¬ adj.contains c))

/-- Split a list of candidate cells into 8-connected components, with fuel
bounding the number of components. -/
def componentsGo : Nat → List Cell → List (List Cell) → List (List Cell)
  | 0, _, acc => acc
  | _, [], acc => acc
  | fuel + 1, c :: rest, acc =>
      let (comp, rest') := growRegion (rest.length + 1) [c] rest
      componentsGo fuel rest' (acc ++ [comp])

/-- Modelled from the spec: connected-component labelling of the candidate
cells of a mask (spec section 4.6). -/
def components (m : BinMask) : List (List Cell) :=
  componentsGo (m.cells.length + 1) m.cells []

/-- A bounding box: top-left corner plus width and height in cells. -/
structure Box where
  x : Nat
  y : Nat
  w : Nat
  h : Nat
deriving DecidableEq, Repr

/-- Modelled from the spec: a CandidateRegion — label id, bounding box,
pixel area, mean deviation magnitude — plus its confidence value
(spec sections 3 and 4.6). -/
structure CandidateRegion where
  labelId : Nat
  bbox : Box
  area : Nat
  meanDev : ℚ
  confidence : ℚ
deriving DecidableEq, Repr

/-- Modelled from the spec: the confidence formula — a monotonic function
of area and mean deviation magnitude, bounded to the interval from 0 to 1
(spec section 4.6; the exact formula is an implementation choice bounded
by those invariants). -/
def confidenceOf (area : Nat) (meanDev : ℚ) : ℚ :=
  let s := (area : ℚ) * meanDev
  s / (s + 1)

/-- The bounding box of a non-empty cell list: min/max cell coordinates
(spec section 4.6). -/
def boundingBoxOf (cells : List Cell) : Box :=
  let xs := cells.map Prod.fst
  let ys := cells.map Prod.snd
  let x0 := xs.foldr min (xs.headD 0)
  let y0 := ys.foldr min (ys.headD 0)
  let x1 := xs.foldr max 0
  let y1 := ys.foldr max 0
  { x := x0, y := y0, w := x1 + 1 - x0, h := y1 + 1 - y0 }

/-- Build the CandidateRegion of one labelled component: area is the cell
count, mean deviation is the average deviation magnitude inside the
region, and confidence is `confidenceOf` applied to both. -/
def mkRegion (dm : DifferenceMap) (labelId : Nat) (cells : List Cell) :
    CandidateRegion :=
  let area := cells.length
  let sumDev := (cells.map (fun c => dm.devAt c)).sum
  let meanDev : ℚ := (sumDev : ℚ) / (area : ℚ)
  { labelId := labelId, bbox := boundingBoxOf cells, area := area,
    meanDev := meanDev, confidence := confidenceOf area meanDev }

/-- Modelled from the spec: the Region Extractor — label 8-connected
components of the candidate cells into CandidateRegions and discard those
with area below `minDefectArea` (spec section 4.6). -/
def extractRegions (minDefectArea : Nat) (dm : DifferenceMap)
    (m : BinMask) : List CandidateRegion :=
  (((components m).enum).map
      (fun p => mkRegion dm p.1 p.2)).filter
    (fun r => minDefectArea ≤ r.area)

/-! ## Temporal aggregator / defect reporter (spec section 4.7) -/

/-- Modelled from the spec: the lifecycle phase of a tracked Defect —
Pending until confirmed by N consecutive overlapping appearances,
Confirmed afterwards (Retired defects are removed from tracking)
(spec section 4.7). -/
inductive DefectPhase where
  | pending
  | confirmed
deriving DecidableEq, Repr

/-- Modelled from the spec: a Defect entity — id, bounding box, area,
confidence, first and last seen frames — plus its phase and the streak
counters driving the Pending/Confirmed/Retired transitions
(spec sections 3 and 4.7).  `hitStreak` counts the consecutive frames of
the appearance run that led to the current phase (a Pending defect is
removed as soon as a frame misses it, so for Pending defects it is exactly
the number of consecutive frames seen so far); `missStreak` counts the
consecutive frames with no matching region. -/
structure Defect where
  id : Nat
  bbox : Box
  area : Nat
  confidence : ℚ
  firstSeen : Nat
  lastSeen : Nat
  phase : DefectPhase
  hitStreak : Nat
  missStreak : Nat
deriving DecidableEq, Repr

/-- Modelled from the spec: the aggregator configuration — N consecutive
frames to confirm (default 3), M consecutive misses to retire, and the
minimum bounding-box overlap fraction as a rational
(spec sections 4.7 and 6). -/
structure AggConfig where
  confirmFrameCount : Nat := 3
  retireFrameCount : Nat := 2
  minOverlapNum : Nat := 1
  minOverlapDen : Nat := 2
deriving DecidableEq, Repr

/-- Mutable state of the temporal aggregator: the tracked defects, the
next fresh defect id and the current frame counter. -/
structure AggState where
  tracked : List Defect
  nextId : Nat
  frameCounter : Nat
deriving DecidableEq, Repr

/-- The aggregator's initial state: nothing tracked. -/
def AggState.initial : AggState :=
  { tracked := [], nextId := 0, frameCounter := 0 }

/-- Area of a bounding box in cells. -/
def Box.boxArea (b : Box) : Nat :=
  b.w * b.h

/-- Overlap area of two bounding boxes (0 when disjoint, by truncated
subtraction). -/
def Box.overlap (a b : Box) : Nat :=
  (min (a.x + a.w) (b.x + b.w) - max a.x b.x) *
    (min (a.y + a.h) (b.y + b.h) - max a.y b.y)

/-- Modelled from the spec: a region qualifies as a match for a tracked
defect when the bounding-box overlap is at least the configured minimum
fraction (numerator over denominator) of the defect's box area
(spec section 4.7). -/
def qualifies (cfg : AggConfig) (d : Defect) (r : CandidateRegion) : Bool :=
  decide (cfg.minOverlapNum * d.bbox.boxArea ≤
    cfg.minOverlapDen * d.bbox.overlap r.bbox)

/-- Modelled from the spec: greatest overlap above the minimum fraction
wins the match (spec section 4.7). -/
def bestMatch (cfg : AggConfig) (d : Defect) (regions : List CandidateRegion) :
    Option CandidateRegion :=
  regions.foldl
    (fun acc r =>
      if qualifies cfg d r then
        match acc with
        | none => some r
        | some r' => if d.bbox.overlap r'.bbox < d.bbox.overlap r.bbox then some r else acc
      else acc)
    none

/-- Update a tracked defect matched by a region in the current frame: the
location and confidence follow the region, the hit streak grows, and a
Pending defect whose streak reaches `confirmFrameCount` becomes
Confirmed (spec section 4.7). -/
def matchedUpdate (cfg : AggConfig) (frameId : Nat) (d : Defect)
    (r : CandidateRegion) : Defect :=
  let streak := d.hitStreak + 1
  { d with bbox := r.bbox, area := r.area, confidence := r.confidence,
           lastSeen := frameId, hitStreak := streak, missStreak := 0,
           phase := if d.phase = .pending ∧ cfg.confirmFrameCount ≤ streak
                    then .confirmed else d.phase }

/-- Update a tracked defect with no matching region in the current frame:
a Pending defect is dropped (its consecutive run is broken), a Confirmed
defect accumulates misses and is retired after `retireFrameCount`
consecutive misses (spec section 4.7). -/
def missedUpdate (cfg : AggConfig) (d : Defect) : Option Defect :=
  match d.phase with
  | .pending => none
  | .confirmed =>
      if cfg.retireFrameCount ≤ d.missStreak + 1 then none
      else some { d with missStreak := d.missStreak + 1 }

/-- Modelled from the spec: a fresh Pending defect created from an
unmatched new CandidateRegion; it is immediately Confirmed only when the
configured confirmation count is at most its one-frame run
(spec section 4.7). -/
def newDefect (cfg : AggConfig) (frameId : Nat) (id : Nat)
    (r : CandidateRegion) : Defect :=
  { id := id, bbox := r.bbox, area := r.area, confidence := r.confidence,
    firstSeen := frameId, lastSeen := frameId,
    phase := if cfg.confirmFrameCount ≤ 1 then .confirmed else .pending,
    hitStreak := 1, missStreak := 0 }

/-- Match every tracked defect against the frame's regions in order,
consuming each matched region so a region backs at most one defect. -/
def stepTracked (cfg : AggConfig) (frameId : Nat) :
    List Defect → List CandidateRegion → List Defect × List CandidateRegion
  | [], regions => ([], regions)
  | d :: ds, regions =>
      match bestMatch cfg d regions with
      | some r =>
          (matchedUpdate cfg frameId d r ::
              (stepTracked cfg frameId ds (regions.erase r)).1,
           (stepTracked cfg frameId ds (regions.erase r)).2)
      | none =>
          match missedUpdate cfg d with
          | some d' =>
              (d' :: (stepTracked cfg frameId ds regions).1,
               (stepTracked cfg frameId ds regions).2)
          | none => stepTracked cfg frameId ds regions

/-- Create fresh Pending defects for the regions left unmatched. -/
def createNew (cfg : AggConfig) (frameId : Nat) (firstId : Nat) :
    List CandidateRegion → List Defect
  | [] => []
  | r :: rs => newDefect cfg frameId firstId r :: createNew cfg frameId (firstId + 1) rs

/-- Modelled from the spec: one aggregation step — match the frame's
CandidateRegions against the tracked Defects, apply the
Pending/Confirmed/Retired transitions, create Pending defects for
unmatched regions, and report only the Confirmed defects
(spec section 4.7). -/
def aggStep (cfg : AggConfig) (st : AggState)
    (regions : List CandidateRegion) : AggState × List Defect :=
  let sr := stepTracked cfg st.frameCounter st.tracked regions
  let tracked' := sr.1 ++ createNew cfg st.frameCounter st.nextId sr.2
  ({ tracked := tracked', nextId := st.nextId + sr.2.length,
     frameCounter := st.frameCounter + 1 },
   tracked'.filter (fun d => d.phase = .confirmed))

/-- Run the aggregator over the region lists of consecutive frames,
collecting the reported defect list of every frame. -/
def runAgg (cfg : AggConfig) (st : AggState) :
    List (List CandidateRegion) → AggState × List (List Defect)
  | [] => (st, [])
  | rs :: rest =>
      ((runAgg cfg (aggStep cfg st rs).1 rest).1,
       (aggStep cfg st rs).2 :: (runAgg cfg (aggStep cfg st rs).1 rest).2)

/-- The aggregator's confirmation invariant: every tracked Confirmed
defect owes its phase to a consecutive-appearance run of at least
`confirmFrameCount` frames. -/
def AggInv (cfg : AggConfig) (st : AggState) : Prop :=
  ∀ d ∈ st.tracked, d.phase = DefectPhase.confirmed →
    cfg.confirmFrameCount ≤ d.hitStreak

/-! ## Detection results and the pipeline scheduler (spec section 4.8) -/

/-- Modelled from the spec: a DetectionResult — frame id, snapshots of the
Confirmed defects, processing latency and status (spec section 3). -/
structure DetectionResult where
  frame_id : Nat
  defects : List Defect
  latencyMs : Nat
  status : ResultStatus
deriving DecidableEq, Repr

/-- Modelled from the spec: the scheduler's delivery side — the next frame
id owed to the consumer, the reordering buffer of completed but not yet
deliverable results keyed by frame id, and the results already delivered,
in delivery order (spec sections 4.8 and 5). -/
structure SchedState where
  nextExpected : Nat
  pending : List (Nat × DetectionResult)
  delivered : List DetectionResult
deriving DecidableEq, Repr

/-- The scheduler's initial delivery state: frame 0 owed, nothing held. -/
def SchedState.initial : SchedState :=
  { nextExpected := 0, pending := [], delivered := [] }

/-- Drain the reordering buffer: while the next expected frame id has a
completed result buffered, deliver it and advance; fuel bounds the loop. -/
def drainLoop : Nat → SchedState → SchedState
  | 0, s => s
  | fuel + 1, s =>
      match s.pending.find? (fun p => p.1 == s.nextExpected) with
      | none => s
      | some p =>
          drainLoop fuel
            { nextExpected := s.nextExpected + 1,
              pending := s.pending.filter (fun q => q.1 ≠ s.nextExpected),
              delivered := s.delivered ++ [p.2] }

/-- Modelled from the spec: a frame's processing completes (Done, Dropped
and Failed all count as resolved) — the result enters the reordering
buffer and every now-deliverable result is released in frame-id order
(spec sections 4.8 and 5). -/
def SchedState.complete (s : SchedState) (r : DetectionResult) : SchedState :=
  drainLoop (s.pending.length + 1)
    { s with pending := (r.frame_id, r) :: s.pending }

/-- Feed the scheduler a sequence of completion events, in any order of
frame ids (out-of-order completion). -/
def runScheduler (events : List DetectionResult) : SchedState :=
  events.foldl SchedState.complete SchedState.initial

/-- The scheduler's delivery invariant: the delivered frame ids are
exactly 0, 1, ..., nextExpected - 1 in order, and every buffered result is
keyed by its own frame id. -/
def SchedInv (s : SchedState) : Prop :=
  s.delivered.map DetectionResult.frame_id = List.range s.nextExpected ∧
    ∀ p ∈ s.pending, (p : Nat × DetectionResult).2.frame_id = p.1

/-! ## Reference profile and alignment stage (spec sections 3, 4.2, 6) -/

/-- A point in image coordinates, with rational components so estimated
transforms apply exactly. -/
structure Pt where
  x : ℚ
  y : ℚ
deriving DecidableEq, Repr

/-- Modelled from the spec: a ReferenceProfile — product id, reference
image, keypoints used for alignment, threshold parameter and morphology
kernel radius (spec section 3). -/
structure ReferenceProfile where
  productId : Nat
  image : ImageGrid
  keypoints : List Pt
  diffThreshold : Nat
  morphKernelRadius : Nat
deriving DecidableEq, Repr

/-- The pixel value of an image at a cell (0 outside the buffer). -/
def ImageGrid.pixAt (img : ImageGrid) (c : Cell) : Nat :=
  (img.pix.drop (c.2 * img.width + c.1)).headD 0

/-- Modelled from the spec: the Transform — an invertibility-checked
affine subset of the 3×3 homogeneous transform, here axis-aligned scale
plus translation mapping captured-frame coordinates to reference
coordinates (spec section 3 allows a simpler affine subset). -/
structure Transform where
  sx : ℚ
  sy : ℚ
  tx : ℚ
  ty : ℚ
deriving DecidableEq, Repr

/-- Determinant of the transform's linear part; the invariant of spec
section 3 demands it be non-zero. -/
def Transform.det (t : Transform) : ℚ :=
  t.sx * t.sy

/-- Apply the transform to a point. -/
def Transform.apply (t : Transform) (p : Pt) : Pt :=
  { x := t.sx * p.x + t.tx, y := t.sy * p.y + t.ty }

/-- Apply the inverse transform to a point (total: rational division by a
zero scale yields 0, but such transforms are rejected as non-invertible). -/
def Transform.applyInv (t : Transform) (p : Pt) : Pt :=
  { x := (p.x - t.tx) / t.sx, y := (p.y - t.ty) / t.sy }

/-- Squared Euclidean distance between two points. -/
def dist2 (a b : Pt) : ℚ :=
  (a.x - b.x) * (a.x - b.x) + (a.y - b.y) * (a.y - b.y)

/-- A matched feature pair: a captured-frame point and the reference
keypoint it matched. -/
structure FeatureMatch where
  src : Pt
  dst : Pt
deriving DecidableEq, Repr

/-- Modelled from the spec: extract a sparse set of distinctive local
features — the strict local maxima of the pixel values over the
8-neighbourhood (spec section 4.2; the exact detector is an
implementation choice). -/
def extractFeatures (img : ImageGrid) : List Pt :=
  ((gridCells img.width img.height).filter
      (fun c => (gridCells img.width img.height).all
        (fun c' => adjacent8 c c' → img.pixAt c' < img.pixAt c))).map
    (fun c => { x := (c.1 : ℚ), y := (c.2 : ℚ) })

/-- The keypoint nearest to a feature, by squared distance. -/
def nearestKeypoint (p : Pt) : List Pt → Option Pt
  | [] => none
  | k :: ks =>
      match nearestKeypoint p ks with
      | none => some k
      | some k' => if dist2 p k ≤ dist2 p k' then some k else some k'

/-- Modelled from the spec: match the extracted features against the
profile's stored keypoints — each feature pairs with its nearest keypoint
(spec section 4.2). -/
def matchFeatures (features : List Pt) (keypoints : List Pt) :
    List FeatureMatch :=
  features.filterMap
    (fun p => (nearestKeypoint p keypoints).map (fun k => { src := p, dst := k }))

/-- Modelled from the spec: the alignment configuration — the minimum
number of matches, the bound on the final reprojection error and the
inlier tolerance of the robust fit, both as squared distances
(spec sections 4.2 and 6). -/
structure AlignConfig where
  minMatches : Nat := 4
  maxReprojErr : ℚ := 4
  inlierTol : ℚ := 2
deriving DecidableEq, Repr

/-- The candidate transform fitted to a minimal subset of two matches:
solve per-axis scale and translation (a degenerate subset yields zero
scales through total rational division and is rejected later as
non-invertible). -/
def candidateOf (m1 m2 : FeatureMatch) : Transform :=
  let sx := (m2.dst.x - m1.dst.x) / (m2.src.x - m1.src.x)
  let sy := (m2.dst.y - m1.dst.y) / (m2.src.y - m1.src.y)
  { sx := sx, sy := sy, tx := m1.dst.x - sx * m1.src.x,
    ty := m1.dst.y - sy * m1.src.y }

/-- A match is consistent with a candidate when its reprojection lands
within the inlier tolerance. -/
def isInlier (cfg : AlignConfig) (t : Transform) (m : FeatureMatch) : Bool :=
  decide (dist2 (t.apply m.src) m.dst ≤ cfg.inlierTol)

/-- Number of matches consistent with a candidate. -/
def inlierCount (cfg : AlignConfig) (t : Transform) (ms : List FeatureMatch) : Nat :=
  (ms.filter (isInlier cfg t)).length

/-- Modelled from the spec: the robust fit samples minimal matched-point
subsets (here every consecutive pair, deterministically), computes a
candidate transform for each and keeps the one with the largest
consistent-match count (spec section 4.2). -/
def bestCandidate (cfg : AlignConfig) (ms : List FeatureMatch) : Transform :=
  ((ms.zip ms.tail).map (fun p => candidateOf p.1 p.2)).foldl
    (fun best t =>
      if inlierCount cfg best ms < inlierCount cfg t ms then t else best)
    { sx := 1, sy := 1, tx := 0, ty := 0 }

/-- Mean of a list of rationals (0 for the empty list, by total division). -/
def ratMean (qs : List ℚ) : ℚ :=
  qs.sum / (qs.length : ℚ)

/-- Modelled from the spec: refine the winning candidate using all
consistent matches — the translation is corrected by the mean residual of
the inliers (spec section 4.2). -/
def refineTransform (cfg : AlignConfig) (t : Transform)
    (ms : List FeatureMatch) : Transform :=
  let inliers := ms.filter (isInlier cfg t)
  { t with
    tx := t.tx + ratMean (inliers.map (fun m => m.dst.x - (t.apply m.src).x)),
    ty := t.ty + ratMean (inliers.map (fun m => m.dst.y - (t.apply m.src).y)) }

/-- The reprojection error of a transform over a match set: the largest
squared distance between a reprojected feature and its keypoint. -/
def reprojErr (t : Transform) (ms : List FeatureMatch) : ℚ :=
  (ms.map (fun m => dist2 (t.apply m.src) m.dst)).foldr max 0

/-- Modelled from the spec: the AlignmentFailure cases — too few matches,
reprojection error above the configured bound, or a non-invertible
transform (spec section 4.2). -/
inductive AlignFail where
  | tooFewMatches
  | reprojExceeded
  | nonInvertible
deriving DecidableEq, Repr

/-- Modelled from the spec: the Alignment Stage — extract features, match
them against the profile's keypoints, robust-fit and refine a transform;
fail with AlignmentFailure when fewer than the minimum number of matches
are found, when the best candidate's reprojection error exceeds the
configured bound, or when the resulting transform is non-invertible
(spec section 4.2). -/
def computeAlignment (cfg : AlignConfig) (profile : ReferenceProfile)
    (img : ImageGrid) : Except AlignFail Transform :=
  let ms := matchFeatures (extractFeatures img) profile.keypoints
  if ms.length < cfg.minMatches then .error .tooFewMatches
  else
    let t := refineTransform cfg (bestCandidate cfg ms) ms
    if cfg.maxReprojErr < reprojErr t ms then .error .reprojExceeded
    else if t.det = 0 then .error .nonInvertible
    else .ok t

/-- Whether an alignment outcome is a failure. -/
def alignFailed (e : Except AlignFail Transform) : Bool :=
  match e with
  | .error _ => true
  | .ok _ => false

/-! ## Difference stage (spec section 4.3) -/

/-- Round a rational point to the integer cell it samples, or none when it
falls outside the given grid. -/
def sampleCell (w h : Nat) (p : Pt) : Option Cell :=
  let xi := p.x.floor
  let yi := p.y.floor
  if 0 ≤ xi ∧ xi < (w : Int) ∧ 0 ≤ yi ∧ yi < (h : Int) then
    some (xi.toNat, yi.toNat)
  else none

/-- Modelled from the spec: the Difference Stage — resample the captured
frame into the reference's coordinate grid through the transform and take
the absolute deviation per cell; cells outside the resampled frame's
valid region are excluded, carrying deviation 0 so no later stage sees
them as candidates (spec section 4.3). -/
def computeDifferenceMap (profile : ReferenceProfile) (img : ImageGrid)
    (t : Transform) : DifferenceMap :=
  let w := profile.image.width
  let h := profile.image.height
  { width := w, height := h,
    dev := ((gridCells w h).map (fun c =>
      match sampleCell img.width img.height
          (t.applyInv { x := (c.1 : ℚ), y := (c.2 : ℚ) }) with
      | none => 0
      | some src =>
          max (profile.image.pixAt c) (img.pixAt src) -
            min (profile.image.pixAt c) (img.pixAt src))) }

/-! ## Whole-pipeline composition and determinism -/

/-- Modelled from the spec: the configuration surface of the pipeline
(spec section 6), restricted to the parameters the detection path uses. -/
structure PipelineConfig where
  align : AlignConfig := {}
  diffThreshold : Nat := 25
  morphKernelRadius : Nat := 1
  minDefectArea : Nat := 2
  agg : AggConfig := {}
deriving DecidableEq, Repr

/-- Modelled from the spec: the per-frame detection computation of the
planned `DefectDetector.detectDefects` — align, difference, threshold,
morphological close, extract regions; an alignment failure skips the frame
and yields no regions (plan document Task 3.2 and spec sections 4.2
to 4.6). -/
def detectDefects (cfg : PipelineConfig) (profile : ReferenceProfile)
    (img : ImageGrid) : List CandidateRegion :=
  match computeAlignment cfg.align profile img with
  | .error _ => []
  | .ok t =>
      let dm := computeDifferenceMap profile img t
      let mask := thresholdStage cfg.diffThreshold dm
      let closed := morphologicalClose cfg.morphKernelRadius mask
      extractRegions cfg.minDefectArea dm closed

/-- Ambient mutable state surrounding a detection run: the diagnostic log
and the processed-frame counter, both updated on every run. -/
structure World where
  log : List String
  framesProcessed : Nat
deriving DecidableEq, Repr

/-- One detection run in an ambient world: the world's log and counter
advance, and the regions are computed from the frame, the reference
profile and the configuration alone. -/
def runDetectOnce (w : World) (cfg : PipelineConfig)
    (profile : ReferenceProfile) (img : ImageGrid) :
    World × List CandidateRegion :=
  let out := detectDefects cfg profile img
  ({ log := w.log ++ ["frame processed"],
     framesProcessed := w.framesProcessed + 1 }, out)

/-- Run detection twice in sequence on the same frame, reference and
profile, threading the world through; returns both outputs. -/
def runDetectTwice (w : World) (cfg : PipelineConfig)
    (profile : ReferenceProfile) (img : ImageGrid) :
    List CandidateRegion × List CandidateRegion :=
  let (w1, out1) := runDetectOnce w cfg profile img
  let (_, out2) := runDetectOnce w1 cfg profile img
  (out1, out2)

/-! ## Per-frame pipeline runs and statelessness of alignment -/

/-- Modelled from the spec: process one admitted frame — on
AlignmentFailure the DetectionResult carries status AlignmentFailed with
no defects and the frame is skipped from differencing and aggregation; on
success the full stage chain runs and the aggregator advances
(spec sections 4.2 and 4.8). -/
def processOneFrame (cfg : PipelineConfig) (profile : ReferenceProfile)
    (st : AggState) (f : Frame) : DetectionResult × AggState :=
  match computeAlignment cfg.align profile f.img with
  | .error _ =>
      ({ frame_id := f.id, defects := [], latencyMs := 0,
         status := .alignmentFailed }, st)
  | .ok t =>
      let dm := computeDifferenceMap profile f.img t
      let mask := thresholdStage cfg.diffThreshold dm
      let closed := morphologicalClose cfg.morphKernelRadius mask
      let regions := extractRegions cfg.minDefectArea dm closed
      ({ frame_id := f.id, defects := (aggStep cfg.agg st regions).2,
         latencyMs := 0, status := .ok }, (aggStep cfg.agg st regions).1)

/-- Process a sequence of frames in order, collecting each frame's
DetectionResult. -/
def runFrames (cfg : PipelineConfig) (profile : ReferenceProfile)
    (st : AggState) : List Frame → List DetectionResult
  | [] => []
  | f :: fs =>
      (processOneFrame cfg profile st f).1 ::
        runFrames cfg profile (processOneFrame cfg profile st f).2 fs

/-! ## Reference profile loading (spec sections 6 and 7) -/

/-- Modelled from the spec: the InvalidReferenceProfile error
(spec section 7). -/
inductive ProfileError where
  | invalidReferenceProfile
deriving DecidableEq, Repr

/-- A profile is well formed when its image buffer matches its declared
dimensions. -/
def profileWellFormed (p : ReferenceProfile) : Bool :=
  p.image.pix.length == p.image.width * p.image.height

/-- A profile is dimensionally consistent with the expected frame size
when its reference image has exactly those dimensions. -/
def dimConsistent (w h : Nat) (p : ReferenceProfile) : Bool :=
  p.image.width == w && p.image.height == h

/-- Modelled from the spec: profile validation — well formed and
dimensionally consistent with the expected frame size (spec section 6). -/
def profileValid (w h : Nat) (p : ReferenceProfile) : Bool :=
  profileWellFormed p && dimConsistent w h p

/-- Modelled from the spec: the pipeline state visible across a profile
load — the expected frame size, the currently active profile and the
aggregator state (spec sections 3 and 6). -/
structure PipelineState where
  expectedWidth : Nat
  expectedHeight : Nat
  activeProfile : ReferenceProfile
  agg : AggState
deriving DecidableEq, Repr

/-- Modelled from the spec: loading a ReferenceProfile — a valid profile
replaces the active one by an atomic whole-object swap; a malformed or
dimensionally inconsistent profile is rejected with
InvalidReferenceProfile and the pipeline state is left untouched
(spec sections 3, 6 and 7). -/
def loadProfile (st : PipelineState) (p : ReferenceProfile) :
    Except ProfileError Unit × PipelineState :=
  if profileValid st.expectedWidth st.expectedHeight p then
    (.ok (), { st with activeProfile := p })
  else
    (.error .invalidReferenceProfile, st)

/-! ## Theorems -/

/-- C10: `CameraCapture.stop` is idempotent — after one call to `stop`,
`getStream`, `getVideoTrack` and `getStreamSettings` all return null, and
a second call to `stop` leaves the object's state unchanged (and emits no
further effects). -/
theorem cameraCapture_stop_idempotent (st : CameraCapture) :
    CameraCapture.getStream (CameraCapture.stop st).1 = none ∧
    CameraCapture.getVideoTrack (CameraCapture.stop st).1 = none ∧
    CameraCapture.getStreamSettings (CameraCapture.stop st).1 = none ∧
    (CameraCapture.stop (CameraCapture.stop st).1).1 = (CameraCapture.stop st).1 ∧
    (CameraCapture.stop (CameraCapture.stop st).1).2 = [] :=
  ⟨rfl, rfl, rfl, rfl, rfl⟩

/-- C8: `FrameProcessor::processFrame` returns `processed = false` with
error "WebGPU device not initialized" exactly when no non-null device was
installed (freshly constructed, or initialized with a null device), and
otherwise echoes the dimensions with `processed = true` and an empty
error string. -/
theorem frameProcessor_processFrame_spec (fp : FrameProcessor)
    (dev : Option Nat) (tid : Nat) (w h : Int) :
    FrameProcessor.processFrame FrameProcessor.new tid w h =
      { processed := false, width := 0, height := 0,
        error := "WebGPU device not initialized" } ∧
    (dev = none →
      FrameProcessor.processFrame (FrameProcessor.init fp dev).2 tid w h =
        { processed := false, width := 0, height := 0,
          error := "WebGPU device not initialized" }) ∧
    (∀ d : Nat, dev = some d →
      FrameProcessor.processFrame (FrameProcessor.init fp dev).2 tid w h =
        { processed := true, width := w, height := h, error := "" }) := by
  refine ⟨rfl, ?_, ?_⟩
  · rintro rfl
    rfl
  · rintro d rfl
    rfl

/-- Witness for C8: a processor initialized with device handle 1
processes a 640 by 480 frame successfully. -/
theorem frameProcessor_processFrame_spec_witness :
    FrameProcessor.processFrame
        (FrameProcessor.init FrameProcessor.new (some 1)).2 7 640 480 =
      { processed := true, width := 640, height := 480, error := "" } :=
  (frameProcessor_processFrame_spec FrameProcessor.new (some 1) 7 640 480).2.2 1 rfl

/-- C7: loading an invalid ReferenceProfile is rejected with
InvalidReferenceProfile and leaves the whole pipeline state — in
particular the previously active profile — unchanged, and in every case
the active profile after a load is wholly the old profile or wholly the
new one, never a mix. -/
theorem loadProfile_rejects_invalid (st : PipelineState) (p : ReferenceProfile) :
    (profileValid st.expectedWidth st.expectedHeight p = false →
      loadProfile st p = (.error .invalidReferenceProfile, st)) ∧
    ((loadProfile st p).2.activeProfile = st.activeProfile ∨
      (loadProfile st p).2.activeProfile = p) := by
  by_cases hv : profileValid st.expectedWidth st.expectedHeight p = true
  · refine ⟨fun hf => ?_, Or.inr ?_⟩
    · rw [hv] at hf
      cases hf
    · simp [loadProfile, hv]
  · have hv' : profileValid st.expectedWidth st.expectedHeight p = false := by
      revert hv
      cases profileValid st.expectedWidth st.expectedHeight p <;> simp
    refine ⟨fun _ => ?_, Or.inl ?_⟩ <;> simp [loadProfile, hv']

/-- Witness for C7: a profile whose reference image is 1 by 1 is rejected
by a pipeline expecting 2 by 2 frames, and the state is untouched. -/
theorem loadProfile_rejects_invalid_witness :
    loadProfile
        { expectedWidth := 2, expectedHeight := 2,
          activeProfile :=
            { productId := 0,
              image := { width := 2, height := 2, pix := [0, 0, 0, 0] },
              keypoints := [], diffThreshold := 25, morphKernelRadius := 1 },
          agg := AggState.initial }
        { productId := 1, image := { width := 1, height := 1, pix := [0] },
          keypoints := [], diffThreshold := 25, morphKernelRadius := 1 } =
      (.error .invalidReferenceProfile,
        { expectedWidth := 2, expectedHeight := 2,
          activeProfile :=
            { productId := 0,
              image := { width := 2, height := 2, pix := [0, 0, 0, 0] },
              keypoints := [], diffThreshold := 25, morphKernelRadius := 1 },
          agg := AggState.initial }) :=
  (loadProfile_rejects_invalid _ _).1 (by decide)

/-- C5: detection is deterministic — running detection twice on the same
frame with the same reference profile and configuration, threading the
ambient world state through both runs, yields identical region lists and
in particular identical bounding boxes and confidence values. -/
theorem detect_run_twice_deterministic (w : World) (cfg : PipelineConfig)
    (profile : ReferenceProfile) (img : ImageGrid) :
    (runDetectTwice w cfg profile img).1 = (runDetectTwice w cfg profile img).2 ∧
    ((runDetectTwice w cfg profile img).1.map (fun r => (r.bbox, r.confidence)) =
      (runDetectTwice w cfg profile img).2.map (fun r => (r.bbox, r.confidence))) :=
  ⟨rfl, rfl⟩

/-- C9 (counterexample): when `requestAdapter` rejects with an `Error`
whose message is the empty string, the catch block of
`WebGPUDetector.initialize` returns `supported = false` with an empty
error string, so not every unsupported outcome carries a non-empty error
string. -/
theorem webgpu_init_nonempty_error_counterexample :
    (WebGPUDetector.init
        { gpuPresent := true, adapterReq := .throws (.errObj ""),
          deviceReq := .ok none }
        WebGPUDetector.new).1.supported = false ∧
    (WebGPUDetector.init
        { gpuPresent := true, adapterReq := .throws (.errObj ""),
          deviceReq := .ok none }
        WebGPUDetector.new).1.error = some "" :=
  ⟨rfl, rfl⟩

/-- C9 (amended): `WebGPUDetector.initialize` always returns a
`WebGPUStatus`; every `supported = false` outcome carries an error string,
which is non-empty on every non-exception path (a caught exception
propagates its own message, which an `Error` may leave empty); and
`supported = true` implies adapter and device are non-null and are
subsequently returned by `getAdapter` and `getDevice`. -/
theorem webgpu_init_status_spec (env : GpuEnv) (st : WebGPUDetector) :
    ((WebGPUDetector.init env st).1.supported = false →
      ((WebGPUDetector.init env st).1.error).isSome = true) ∧
    ((WebGPUDetector.init env st).1.supported = false →
      env.adapterReq.resolves = true → env.deviceReq.resolves = true →
      ∃ m : String, (WebGPUDetector.init env st).1.error = some m ∧ m ≠ "") ∧
    ((WebGPUDetector.init env st).1.supported = true →
      ((WebGPUDetector.init env st).1.adapter).isSome = true ∧
      ((WebGPUDetector.init env st).1.device).isSome = true ∧
      WebGPUDetector.getAdapter (WebGPUDetector.init env st).2 =
        (WebGPUDetector.init env st).1.adapter ∧
      WebGPUDetector.getDevice (WebGPUDetector.init env st).2 =
        (WebGPUDetector.init env st).1.device) := by
  obtain ⟨gp, ar, dr⟩ := env
  cases gp with
  | false =>
      refine ⟨fun _ => rfl, fun _ _ _ =>
        ⟨"WebGPU not supported in this browser", rfl, by decide⟩,
        fun h => ?_⟩
      simp [WebGPUDetector.init] at h
  | true =>
      cases ar with
      | throws t =>
          refine ⟨fun _ => rfl, fun _ h _ => ?_, fun h => ?_⟩
          · simp [JsCall.resolves] at h
          · simp [WebGPUDetector.init] at h
      | ok a =>
          cases a with
          | none =>
              refine ⟨fun _ => rfl, fun _ _ _ =>
                ⟨"No WebGPU adapter available", rfl, by decide⟩,
                fun h => ?_⟩
              simp [WebGPUDetector.init] at h
          | some adp =>
              cases dr with
              | throws t =>
                  refine ⟨fun _ => rfl, fun _ _ h => ?_, fun h => ?_⟩
                  · simp [JsCall.resolves] at h
                  · simp [WebGPUDetector.init] at h
              | ok d =>
                  cases d with
                  | none =>
                      refine ⟨fun _ => rfl, fun _ _ _ =>
                        ⟨"Failed to create WebGPU device", rfl, by decide⟩,
                        fun h => ?_⟩
                      simp [WebGPUDetector.init] at h
                  | some dev =>
                      refine ⟨fun h => ?_, fun h _ _ => ?_,
                        fun _ => ⟨rfl, rfl, rfl, rfl⟩⟩ <;>
                        simp [WebGPUDetector.init] at h

/-- Witness for C9: with the GPU present and both requests resolving,
initialization succeeds and the stored adapter and device are the ones
returned in the status. -/
theorem webgpu_init_status_spec_witness :
    ((WebGPUDetector.init
        { gpuPresent := true, adapterReq := .ok (some 3),
          deviceReq := .ok (some 5) } WebGPUDetector.new).1.adapter).isSome = true ∧
    WebGPUDetector.getDevice
        (WebGPUDetector.init
          { gpuPresent := true, adapterReq := .ok (some 3),
            deviceReq := .ok (some 5) } WebGPUDetector.new).2 =
      (WebGPUDetector.init
        { gpuPresent := true, adapterReq := .ok (some 3),
          deviceReq := .ok (some 5) } WebGPUDetector.new).1.device := by
  have h := (webgpu_init_status_spec
    { gpuPresent := true, adapterReq := .ok (some 3), deviceReq := .ok (some 5) }
    WebGPUDetector.new).2.2 rfl
  exact ⟨h.1, h.2.2.2⟩

/-- A push never changes the buffer's capacity. -/
theorem RingBuffer.push_capacity (rb : RingBuffer) (f : Frame) :
    (rb.push f).capacity = rb.capacity := by
  unfold RingBuffer.push
  split <;> rfl

/-- A push keeps the occupancy within the capacity. -/
theorem RingBuffer.push_length_le (rb : RingBuffer) (f : Frame)
    (hcap : 0 < rb.capacity) (hlen : rb.slots.length ≤ rb.capacity) :
    (rb.push f).slots.length ≤ rb.capacity := by
  unfold RingBuffer.push
  split
  · next hfull =>
      simp only [List.length_append, List.length_tail, List.length_cons,
        List.length_nil]
      omega
  · next hroom =>
      simp only [List.length_append, List.length_cons, List.length_nil]
      omega

/-- A burst of pushes keeps the occupancy within the capacity. -/
theorem RingBuffer.pushMany_length_le (fs : List Frame) (rb : RingBuffer)
    (hcap : 0 < rb.capacity) (hlen : rb.slots.length ≤ rb.capacity) :
    (rb.pushMany fs).slots.length ≤ rb.capacity := by
  induction fs generalizing rb with
  | nil => exact hlen
  | cons f fs ih =>
      have hcap' : 0 < (rb.push f).capacity := by
        rw [RingBuffer.push_capacity]; exact hcap
      have hlen' := RingBuffer.push_length_le rb f hcap hlen
      have := ih (rb.push f) hcap'
        (by rw [RingBuffer.push_capacity]; exact hlen')
      calc (RingBuffer.pushMany rb (f :: fs)).slots.length
          = (RingBuffer.pushMany (rb.push f) fs).slots.length := rfl
        _ ≤ (rb.push f).capacity := this
        _ = rb.capacity := RingBuffer.push_capacity rb f

/-- C2: the frame ring buffer has fixed capacity; a push on a full buffer
evicts the oldest unconsumed frame, reuses its slot and increments the
dropped-frame counter, so occupancy never exceeds the capacity under any
burst of pushes; and with capacity 4, pushing 6 frames before any are
consumed drops exactly 2 frames, leaving `droppedFrameCount = 2`. -/
theorem ringBuffer_drop_oldest_bounded (rb : RingBuffer) (f : Frame)
    (fs : List Frame) (hcap : 0 < rb.capacity)
    (hlen : rb.slots.length ≤ rb.capacity) :
    (rb.push f).slots.length ≤ rb.capacity ∧
    (rb.slots.length = rb.capacity →
      (rb.push f).slots = rb.slots.tail ++ [f] ∧
      (rb.push f).droppedFrameCount = rb.droppedFrameCount + 1) ∧
    (rb.pushMany fs).slots.length ≤ rb.capacity ∧
    (RingBuffer.pushMany (RingBuffer.new 4)
        ((List.range 6).map (fun i =>
          { id := i, timestamp := i,
            img := { width := 1, height := 1, pix := [0] } }))).droppedFrameCount
      = 2 := by
  refine ⟨RingBuffer.push_length_le rb f hcap hlen, fun hfull => ?_,
    RingBuffer.pushMany_length_le fs rb hcap hlen, by decide⟩
  have hc : rb.capacity ≤ rb.slots.length := le_of_eq hfull.symm
  constructor <;> simp [RingBuffer.push, if_pos hc]

/-- Witness for C2: the empty capacity-4 buffer satisfies the occupancy
bound after one push, and the 6-frame burst scenario drops exactly two
frames. -/
theorem ringBuffer_drop_oldest_bounded_witness :
    ((RingBuffer.new 4).push
        { id := 0, timestamp := 0,
          img := { width := 1, height := 1, pix := [0] } }).slots.length ≤
      (RingBuffer.new 4).capacity ∧
    (RingBuffer.pushMany (RingBuffer.new 4)
        ((List.range 6).map (fun i =>
          { id := i, timestamp := i,
            img := { width := 1, height := 1, pix := [0] } }))).droppedFrameCount
      = 2 := by
  have h := ringBuffer_drop_oldest_bounded (RingBuffer.new 4)
    { id := 0, timestamp := 0, img := { width := 1, height := 1, pix := [0] } }
    [] (by decide) (by decide)
  exact ⟨h.1, h.2.2.2⟩

/-- Draining the reordering buffer preserves the delivery invariant. -/
theorem drainLoop_inv (fuel : Nat) (s : SchedState) (h : SchedInv s) :
    SchedInv (drainLoop fuel s) := by
  induction fuel generalizing s with
  | zero => exact h
  | succ n ih =>
      unfold drainLoop
      cases hf : s.pending.find? (fun p => p.1 == s.nextExpected) with
      | none => exact h
      | some p =>
          apply ih
          have hkey : p.1 = s.nextExpected := by
            have := List.find?_some hf
            simpa using this
          have hmem : p ∈ s.pending := List.mem_of_find?_eq_some hf
          have hfid : p.2.frame_id = p.1 := h.2 p hmem
          refine ⟨?_, ?_⟩
          · simp only [List.map_append, List.map_cons, List.map_nil, h.1]
            rw [hfid, hkey, List.range_succ]
          · intro q hq
            exact h.2 q (List.mem_of_mem_filter hq)

/-- A completion event preserves the delivery invariant. -/
theorem complete_inv (s : SchedState) (r : DetectionResult)
    (h : SchedInv s) : SchedInv (s.complete r) := by
  apply drainLoop_inv
  refine ⟨h.1, ?_⟩
  intro q hq
  rcases List.mem_cons.mp hq with hq | hq
  · rw [hq]
  · exact h.2 q hq

/-- Any sequence of completion events leaves the scheduler satisfying the
delivery invariant. -/
theorem runScheduler_inv (events : List DetectionResult) :
    SchedInv (runScheduler events) := by
  have key : ∀ s, SchedInv s → SchedInv (events.foldl SchedState.complete s) := by
    induction events with
    | nil => exact fun s h => h
    | cons e es ih => exact fun s h => ih _ (complete_inv s e h)
  exact key SchedState.initial ⟨rfl, fun p hp => absurd hp (List.not_mem_nil p)⟩

/-- C1: for every sequence of completion events — frames finishing in any
order — the DetectionResults delivered to the external consumer have
strictly increasing frame ids; completed-but-not-yet-deliverable results
stay in the reordering buffer until all prior frame ids are resolved. -/
theorem scheduler_delivery_strictly_increasing (events : List DetectionResult) :
    ((runScheduler events).delivered.map DetectionResult.frame_id).Pairwise
      (fun a b => a < b) := by
  rw [(runScheduler_inv events).1]
  exact List.pairwise_lt_range _

/-- A matched update keeps the confirmation bound: a defect is promoted
only when its streak has reached `confirmFrameCount`, and an already
Confirmed defect's streak only grows. -/
theorem matchedUpdate_inv (cfg : AggConfig) (fid : Nat) (d : Defect)
    (r : CandidateRegion)
    (h : d.phase = DefectPhase.confirmed → cfg.confirmFrameCount ≤ d.hitStreak) :
    (matchedUpdate cfg fid d r).phase = DefectPhase.confirmed →
      cfg.confirmFrameCount ≤ (matchedUpdate cfg fid d r).hitStreak := by
  intro hc
  unfold matchedUpdate at hc ⊢
  simp only at hc ⊢
  by_cases hp : d.phase = DefectPhase.pending ∧ cfg.confirmFrameCount ≤ d.hitStreak + 1
  · exact hp.2
  · rw [if_neg hp] at hc
    have := h hc
    omega

/-- A missed update never invents a Confirmed defect nor shrinks the
streak of one. -/
theorem missedUpdate_inv (cfg : AggConfig) (d d' : Defect)
    (hm : missedUpdate cfg d = some d')
    (h : d.phase = DefectPhase.confirmed → cfg.confirmFrameCount ≤ d.hitStreak) :
    d'.phase = DefectPhase.confirmed → cfg.confirmFrameCount ≤ d'.hitStreak := by
  unfold missedUpdate at hm
  cases hph : d.phase with
  | pending => rw [hph] at hm; cases hm
  | confirmed =>
      rw [hph] at hm
      by_cases hr : cfg.retireFrameCount ≤ d.missStreak + 1
      · rw [if_pos hr] at hm; cases hm
      · rw [if_neg hr] at hm
        cases hm
        intro _
        exact h hph

/-- Matching a frame's regions against the tracked defects preserves the
confirmation bound on every surviving defect. -/
theorem stepTracked_inv (cfg : AggConfig) (fid : Nat) (ds : List Defect)
    (regions : List CandidateRegion)
    (h : ∀ d ∈ ds, d.phase = DefectPhase.confirmed →
      cfg.confirmFrameCount ≤ d.hitStreak) :
    ∀ d' ∈ (stepTracked cfg fid ds regions).1,
      d'.phase = DefectPhase.confirmed → cfg.confirmFrameCount ≤ d'.hitStreak := by
  induction ds generalizing regions with
  | nil => intro d' hd'; cases hd'
  | cons d ds ih =>
      intro d' hd'
      have hhead := h d (List.mem_cons_self d ds)
      have htail : ∀ x ∈ ds, x.phase = DefectPhase.confirmed →
          cfg.confirmFrameCount ≤ x.hitStreak :=
        fun x hx => h x (List.mem_cons_of_mem d hx)
      unfold stepTracked at hd'
      cases hbm : bestMatch cfg d regions with
      | some r =>
          rw [hbm] at hd'
          rcases List.mem_cons.mp hd' with hq | hq
          · rw [hq]; exact matchedUpdate_inv cfg fid d r hhead
          · exact ih (regions.erase r) htail d' hq
      | none =>
          rw [hbm] at hd'
          cases hmu : missedUpdate cfg d with
          | some dmiss =>
              rw [hmu] at hd'
              rcases List.mem_cons.mp hd' with hq | hq
              · rw [hq]; exact missedUpdate_inv cfg d dmiss hmu hhead
              · exact ih regions htail d' hq
          | none =>
              rw [hmu] at hd'
              exact ih regions htail d' hd'

/-- Every freshly created defect satisfies the confirmation bound: it is
Pending with a one-frame streak unless one frame already suffices. -/
theorem createNew_inv (cfg : AggConfig) (fid : Nat) (firstId : Nat)
    (rs : List CandidateRegion) :
    ∀ d ∈ createNew cfg fid firstId rs,
      d.phase = DefectPhase.confirmed → cfg.confirmFrameCount ≤ d.hitStreak := by
  induction rs generalizing firstId with
  | nil => intro d hd; cases hd
  | cons r rs ih =>
      intro d hd
      rcases List.mem_cons.mp hd with hq | hq
      · rw [hq]
        unfold newDefect
        simp only
        by_cases h1 : cfg.confirmFrameCount ≤ 1
        · exact fun _ => h1
        · rw [if_neg h1]
          intro hc
          cases hc
      · exact ih (firstId + 1) d hq

/-- One aggregation step preserves the confirmation invariant and reports
only Confirmed defects whose streak meets the confirmation count. -/
theorem aggStep_inv (cfg : AggConfig) (st : AggState)
    (regions : List CandidateRegion) (h : AggInv cfg st) :
    AggInv cfg (aggStep cfg st regions).1 ∧
    ∀ d ∈ (aggStep cfg st regions).2,
      d.phase = DefectPhase.confirmed ∧ cfg.confirmFrameCount ≤ d.hitStreak := by
  have htr : ∀ d ∈ (stepTracked cfg st.frameCounter st.tracked regions).1 ++
      createNew cfg st.frameCounter st.nextId
        (stepTracked cfg st.frameCounter st.tracked regions).2,
      d.phase = DefectPhase.confirmed → cfg.confirmFrameCount ≤ d.hitStreak := by
    intro d hd
    rcases List.mem_append.mp hd with hq | hq
    · exact stepTracked_inv cfg st.frameCounter st.tracked regions h d hq
    · exact createNew_inv cfg st.frameCounter st.nextId _ d hq
  constructor
  · intro d hd
    exact htr d hd
  · intro d hd
    have hmem := List.mem_of_mem_filter hd
    have hph := List.of_mem_filter hd
    have hph' : d.phase = DefectPhase.confirmed := by
      simpa using hph
    exact ⟨hph', htr d hmem hph'⟩

/-- C4: starting from the empty aggregator state, every DetectionResult
defect list produced over any frame sequence contains only Confirmed
defects — a Pending defect is never delivered — and every reported defect
owes its confirmation to a run of at least `confirmFrameCount`
(default 3) consecutive overlapping appearances. -/
theorem runAgg_inv (cfg : AggConfig) (frames : List (List CandidateRegion)) :
    ∀ st, AggInv cfg st →
      ∀ o ∈ (runAgg cfg st frames).2, ∀ x ∈ o,
        x.phase = DefectPhase.confirmed ∧ cfg.confirmFrameCount ≤ x.hitStreak := by
  induction frames with
  | nil => intro st _ o ho; cases ho
  | cons rs rest ih =>
      intro st hst o ho
      have hstep := aggStep_inv cfg st rs hst
      rcases List.mem_cons.mp ho with hq | hq
      · intro x hx
        rw [hq] at hx
        exact hstep.2 x hx
      · exact ih (aggStep cfg st rs).1 hstep.1 o hq

/-- C4: starting from the empty aggregator state, every DetectionResult
defect list produced over any frame sequence contains only Confirmed
defects — a Pending defect is never delivered — and every reported defect
owes its confirmation to a run of at least `confirmFrameCount`
(default 3) consecutive overlapping appearances. -/
theorem aggregator_reports_only_confirmed (cfg : AggConfig)
    (frames : List (List CandidateRegion)) (out : List Defect) (d : Defect)
    (hout : out ∈ (runAgg cfg AggState.initial frames).2) (hd : d ∈ out) :
    d.phase = DefectPhase.confirmed ∧ cfg.confirmFrameCount ≤ d.hitStreak :=
  runAgg_inv cfg frames AggState.initial
    (fun x hx => absurd hx (List.not_mem_nil x)) out hout d hd

/-- Witness for C4: with the default confirmation count 3, a 10 by 10
region at (50, 50) appearing in 3 consecutive frames yields one Confirmed
defect, reported only on the third frame with a streak of 3. -/
theorem aggregator_reports_only_confirmed_witness :
    ({ id := 0, bbox := { x := 50, y := 50, w := 10, h := 10 }, area := 100,
       confidence := (1 : ℚ), firstSeen := 0, lastSeen := 2,
       phase := DefectPhase.confirmed, hitStreak := 3,
       missStreak := 0 } : Defect).phase = DefectPhase.confirmed ∧
    (3 : Nat) ≤
      ({ id := 0, bbox := { x := 50, y := 50, w := 10, h := 10 },
         area := 100, confidence := (1 : ℚ), firstSeen := 0,
         lastSeen := 2, phase := DefectPhase.confirmed, hitStreak := 3,
         missStreak := 0 } : Defect).hitStreak :=
  aggregator_reports_only_confirmed
    { confirmFrameCount := 3, retireFrameCount := 2, minOverlapNum := 1,
      minOverlapDen := 2 }
    [[{ labelId := 0, bbox := { x := 50, y := 50, w := 10, h := 10 },
        area := 100, meanDev := 2, confidence := (1 : ℚ) }],
     [{ labelId := 0, bbox := { x := 50, y := 50, w := 10, h := 10 },
        area := 100, meanDev := 2, confidence := (1 : ℚ) }],
     [{ labelId := 0, bbox := { x := 50, y := 50, w := 10, h := 10 },
        area := 100, meanDev := 2, confidence := (1 : ℚ) }]]
    [{ id := 0, bbox := { x := 50, y := 50, w := 10, h := 10 }, area := 100,
       confidence := (1 : ℚ), firstSeen := 0, lastSeen := 2,
       phase := DefectPhase.confirmed, hitStreak := 3, missStreak := 0 }]
    { id := 0, bbox := { x := 50, y := 50, w := 10, h := 10 }, area := 100,
      confidence := (1 : ℚ), firstSeen := 0, lastSeen := 2,
      phase := DefectPhase.confirmed, hitStreak := 3, missStreak := 0 }
    (by decide) (by decide)

/-- The confidence formula is non-negative for a non-negative mean
deviation. -/
theorem confidenceOf_nonneg (a : Nat) (m : ℚ) (hm : 0 ≤ m) :
    0 ≤ confidenceOf a m := by
  unfold confidenceOf
  have hs : 0 ≤ (a : ℚ) * m := mul_nonneg (Nat.cast_nonneg a) hm
  exact div_nonneg hs (by linarith)

/-- The confidence formula never exceeds 1. -/
theorem confidenceOf_le_one (a : Nat) (m : ℚ) (hm : 0 ≤ m) :
    confidenceOf a m ≤ 1 := by
  unfold confidenceOf
  have hs : 0 ≤ (a : ℚ) * m := mul_nonneg (Nat.cast_nonneg a) hm
  rw [div_le_one (by linarith)]
  linarith

/-- The map sending x to x/(x+1) is monotone on the non-negative
rationals. -/
theorem ratio_mono (x y : ℚ) (hx : 0 ≤ x) (hxy : x ≤ y) :
    x / (x + 1) ≤ y / (y + 1) := by
  have hx1 : (0 : ℚ) < x + 1 := by linarith
  have hy1 : (0 : ℚ) < y + 1 := by linarith
  rw [div_le_div_iff₀ hx1 hy1]
  nlinarith

/-- Confidence is monotone in the area at a fixed non-negative mean
deviation. -/
theorem confidenceOf_mono_area (a₁ a₂ : Nat) (m : ℚ) (hm : 0 ≤ m)
    (h : a₁ ≤ a₂) : confidenceOf a₁ m ≤ confidenceOf a₂ m := by
  unfold confidenceOf
  refine ratio_mono _ _ (mul_nonneg (Nat.cast_nonneg _) hm) ?_
  have hc : (a₁ : ℚ) ≤ (a₂ : ℚ) := by exact_mod_cast h
  exact mul_le_mul_of_nonneg_right hc hm

/-- Confidence is monotone in the mean deviation at a fixed area. -/
theorem confidenceOf_mono_dev (a : Nat) (m₁ m₂ : ℚ) (h1 : 0 ≤ m₁)
    (h : m₁ ≤ m₂) : confidenceOf a m₁ ≤ confidenceOf a m₂ := by
  unfold confidenceOf
  refine ratio_mono _ _ (mul_nonneg (Nat.cast_nonneg _) h1) ?_
  exact mul_le_mul_of_nonneg_left h (Nat.cast_nonneg a)

/-- Every extracted region has a non-negative mean deviation and carries
the confidence computed by `confidenceOf` from its own area and mean
deviation. -/
theorem extractRegions_mem_spec (minA : Nat) (dm : DifferenceMap)
    (k : BinMask) (r : CandidateRegion) (hr : r ∈ extractRegions minA dm k) :
    0 ≤ r.meanDev ∧ r.confidence = confidenceOf r.area r.meanDev := by
  unfold extractRegions at hr
  have hr' := List.mem_of_mem_filter hr
  rcases List.mem_map.mp hr' with ⟨p, _, hmk⟩
  rw [← hmk]
  unfold mkRegion
  refine ⟨?_, rfl⟩
  exact div_nonneg (by positivity) (Nat.cast_nonneg _)

/-- C6: every surviving candidate region's confidence lies between 0
and 1, and confidence is monotone in both inputs — between two extracted
regions of equal mean deviation the larger area never yields lower
confidence, between two of equal area the larger mean deviation never
yields lower confidence, and the underlying formula is monotone in each
argument. -/
theorem regionExtractor_confidence_spec
    (minA₁ minA₂ : Nat) (dm₁ dm₂ : DifferenceMap) (k₁ k₂ : BinMask)
    (r₁ r₂ : CandidateRegion)
    (h₁ : r₁ ∈ extractRegions minA₁ dm₁ k₁)
    (h₂ : r₂ ∈ extractRegions minA₂ dm₂ k₂)
    (a a₁ a₂ : Nat) (q q₁ q₂ : ℚ) (hq : 0 ≤ q) (hq₁ : 0 ≤ q₁)
    (hqle : q₁ ≤ q₂) (hale : a₁ ≤ a₂) :
    (0 ≤ r₁.confidence ∧ r₁.confidence ≤ 1) ∧
    (r₁.meanDev = r₂.meanDev → r₁.area ≤ r₂.area →
      r₁.confidence ≤ r₂.confidence) ∧
    (r₁.area = r₂.area → r₁.meanDev ≤ r₂.meanDev →
      r₁.confidence ≤ r₂.confidence) ∧
    confidenceOf a₁ q ≤ confidenceOf a₂ q ∧
    confidenceOf a q₁ ≤ confidenceOf a q₂ := by
  obtain ⟨hmd₁, hconf₁⟩ := extractRegions_mem_spec minA₁ dm₁ k₁ r₁ h₁
  obtain ⟨hmd₂, hconf₂⟩ := extractRegions_mem_spec minA₂ dm₂ k₂ r₂ h₂
  refine ⟨⟨?_, ?_⟩, ?_, ?_, ?_, ?_⟩
  · rw [hconf₁]
    exact confidenceOf_nonneg _ _ hmd₁
  · rw [hconf₁]
    exact confidenceOf_le_one _ _ hmd₁
  · intro hmd harea
    rw [hconf₁, hconf₂, hmd]
    exact confidenceOf_mono_area _ _ _ (hmd.symm ▸ hmd₁) harea
  · intro hare hdev
    rw [hconf₁, hconf₂, hare]
    exact confidenceOf_mono_dev _ _ _ hmd₁ hdev
  · exact confidenceOf_mono_area a₁ a₂ q hq hale
  · exact confidenceOf_mono_dev a q₁ q₂ hq₁ hqle

/-- Witness for C6: the two-cell region extracted from a concrete 3 by 3
difference map has confidence between 0 and 1, and the formula's
monotonicity holds at concrete arguments. -/
theorem regionExtractor_confidence_spec_witness :
    (0 ≤ (mkRegion { width := 3, height := 3, dev := [9,9,0,0,0,0,0,0,7] } 0
        [(0,0),(1,0)]).confidence ∧
      (mkRegion { width := 3, height := 3, dev := [9,9,0,0,0,0,0,0,7] } 0
        [(0,0),(1,0)]).confidence ≤ 1) ∧
    confidenceOf 1 (0 : ℚ) ≤ confidenceOf 2 (0 : ℚ) ∧
    confidenceOf 5 (0 : ℚ) ≤ confidenceOf 5 (1 : ℚ) := by
  have h := regionExtractor_confidence_spec 1 1
    { width := 3, height := 3, dev := [9,9,0,0,0,0,0,0,7] }
    { width := 3, height := 3, dev := [9,9,0,0,0,0,0,0,7] }
    { width := 3, height := 3, cells := [(0,0),(1,0),(2,2)] }
    { width := 3, height := 3, cells := [(0,0),(1,0),(2,2)] }
    (mkRegion { width := 3, height := 3, dev := [9,9,0,0,0,0,0,0,7] } 0
      [(0,0),(1,0)])
    (mkRegion { width := 3, height := 3, dev := [9,9,0,0,0,0,0,0,7] } 0
      [(0,0),(1,0)])
    (List.Mem.head _) (List.Mem.head _)
    5 1 2 (0 : ℚ) (0 : ℚ) (1 : ℚ) (by decide) (by decide) (by decide)
    (by decide)
  exact ⟨h.1, h.2.2.2.1, h.2.2.2.2⟩

/-- On an alignment failure the frame's DetectionResult has status
AlignmentFailed with an empty defect list, and the aggregator state is
left untouched. -/
theorem processOneFrame_alignFailed (cfg : PipelineConfig)
    (profile : ReferenceProfile) (st : AggState) (f : Frame)
    (h : alignFailed (computeAlignment cfg.align profile f.img) = true) :
    processOneFrame cfg profile st f =
      ({ frame_id := f.id, defects := [], latencyMs := 0,
         status := ResultStatus.alignmentFailed }, st) := by
  unfold processOneFrame
  cases heq : computeAlignment cfg.align profile f.img with
  | error e => rfl
  | ok t =>
      rw [heq] at h
      simp [alignFailed] at h

/-- The status of the n-th DetectionResult of a run is AlignmentFailed
exactly when alignment fails on the n-th frame alone — no state from
earlier frames is involved. -/
theorem runFrames_status_stateless (cfg : PipelineConfig)
    (profile : ReferenceProfile) (frames : List Frame) :
    ∀ (st : AggState) (n : Nat) (hn : n < frames.length)
      (hn' : n < (runFrames cfg profile st frames).length),
      (((runFrames cfg profile st frames).get ⟨n, hn'⟩).status =
          ResultStatus.alignmentFailed ↔
        alignFailed (computeAlignment cfg.align profile
          (frames.get ⟨n, hn⟩).img) = true) := by
  induction frames with
  | nil =>
      intro st n hn _
      exact absurd hn (Nat.not_lt_zero n)
  | cons f fs ih =>
      intro st n hn hn'
      cases n with
      | zero =>
          show ((processOneFrame cfg profile st f).1.status =
              ResultStatus.alignmentFailed ↔ _)
          cases heq : computeAlignment cfg.align profile f.img with
          | error e =>
              unfold processOneFrame
              rw [heq]
              simp [alignFailed, heq]
          | ok t =>
              unfold processOneFrame
              rw [heq]
              simp [alignFailed, heq]
      | succ m =>
          have hm : m < fs.length := Nat.lt_of_succ_lt_succ hn
          have hm' : m < (runFrames cfg profile
              (processOneFrame cfg profile st f).2 fs).length := by
            have : (runFrames cfg profile st (f :: fs)).length =
                (runFrames cfg profile (processOneFrame cfg profile st f).2
                  fs).length + 1 := rfl
            omega
          exact ih (processOneFrame cfg profile st f).2 m hm hm'

/-- C3: alignment fails with AlignmentFailure exactly when fewer than the
minimum number of matches are found, or the fitted transform's
reprojection error exceeds the configured bound, or the transform is
non-invertible; on failure the frame's DetectionResult carries status
AlignmentFailed with no defects, the aggregator state is untouched
(the frame is skipped from differencing), and the n-th result's alignment
outcome depends on the n-th frame alone — no state is carried over from
earlier frames. -/
theorem alignment_failure_spec (cfg : PipelineConfig)
    (profile : ReferenceProfile) (img : ImageGrid) (st st₀ : AggState)
    (f : Frame) (frames : List Frame) (n : Nat)
    (hn : n < frames.length)
    (hn' : n < (runFrames cfg profile st₀ frames).length) :
    (alignFailed (computeAlignment cfg.align profile img) = true ↔
      ((matchFeatures (extractFeatures img) profile.keypoints).length <
          cfg.align.minMatches ∨
        cfg.align.maxReprojErr < reprojErr
          (refineTransform cfg.align
            (bestCandidate cfg.align
              (matchFeatures (extractFeatures img) profile.keypoints))
            (matchFeatures (extractFeatures img) profile.keypoints))
          (matchFeatures (extractFeatures img) profile.keypoints) ∨
        (refineTransform cfg.align
          (bestCandidate cfg.align
            (matchFeatures (extractFeatures img) profile.keypoints))
          (matchFeatures (extractFeatures img) profile.keypoints)).det = 0)) ∧
    (alignFailed (computeAlignment cfg.align profile f.img) = true →
      processOneFrame cfg profile st f =
        ({ frame_id := f.id, defects := [], latencyMs := 0,
           status := ResultStatus.alignmentFailed }, st)) ∧
    (((runFrames cfg profile st₀ frames).get ⟨n, hn'⟩).status =
        ResultStatus.alignmentFailed ↔
      alignFailed (computeAlignment cfg.align profile
        (frames.get ⟨n, hn⟩).img) = true) := by
  refine ⟨?_, processOneFrame_alignFailed cfg profile st f,
    runFrames_status_stateless cfg profile frames st₀ n hn hn'⟩
  by_cases h1 : (matchFeatures (extractFeatures img) profile.keypoints).length <
      cfg.align.minMatches
  · simp [computeAlignment, h1, alignFailed]
  · by_cases h2 : cfg.align.maxReprojErr < reprojErr
        (refineTransform cfg.align
          (bestCandidate cfg.align
            (matchFeatures (extractFeatures img) profile.keypoints))
          (matchFeatures (extractFeatures img) profile.keypoints))
        (matchFeatures (extractFeatures img) profile.keypoints)
    · simp [computeAlignment, h1, h2, alignFailed]
    · by_cases h3 : (refineTransform cfg.align
          (bestCandidate cfg.align
            (matchFeatures (extractFeatures img) profile.keypoints))
          (matchFeatures (extractFeatures img) profile.keypoints)).det = 0
      · simp [computeAlignment, h1, h2, h3, alignFailed]
      · simp [computeAlignment, h1, h2, h3, alignFailed]

/-- Witness for C3: with a profile holding no keypoints, alignment of a
concrete 2 by 2 frame fails (too few matches) and the frame's
DetectionResult has status AlignmentFailed, an empty defect list, and the
aggregator state is untouched. -/
theorem alignment_failure_spec_witness :
    processOneFrame {}
        { productId := 0, image := { width := 2, height := 2, pix := [5, 1, 1, 1] },
          keypoints := [], diffThreshold := 25, morphKernelRadius := 1 }
        AggState.initial
        { id := 0, timestamp := 0,
          img := { width := 2, height := 2, pix := [5, 1, 1, 1] } } =
      ({ frame_id := 0, defects := [], latencyMs := 0,
         status := ResultStatus.alignmentFailed }, AggState.initial) :=
  (alignment_failure_spec {}
    { productId := 0, image := { width := 2, height := 2, pix := [5, 1, 1, 1] },
      keypoints := [], diffThreshold := 25, morphKernelRadius := 1 }
    { width := 2, height := 2, pix := [5, 1, 1, 1] }
    AggState.initial AggState.initial
    { id := 0, timestamp := 0,
      img := { width := 2, height := 2, pix := [5, 1, 1, 1] } }
    [{ id := 0, timestamp := 0,
       img := { width := 2, height := 2, pix := [5, 1, 1, 1] } }]
    0 (by decide) (by decide)).2.1 (by decide)

end IndustrialCV
